import Mathlib

/-!
# PDFToAudio — verification of the per-document pipeline

Shallow embedding of `src/main.py` (ExceptedPrism3/PDFToAudio).

Modelling conventions:
* The filesystem is the set of existing file paths, represented as a
  `List String`; only presence matters to the program's control flow
  (`Path.exists`), so file contents are not modelled.  Writing a file is
  `List.insert` (creation or overwrite both make the path present).
* Paths are strings built by concatenation: `folder / name` becomes
  `folder ++ "/" ++ name`.
* The remote speech-synthesis service (gTTS) is an oracle mapping
  (text, language, attempt index) to the outcome of that attempt: success,
  a `gTTSError` with a message, or any other exception.  The program's own
  classification of the message (the `"429 (Too Many Requests)" in str(e)`
  substring test) is part of the embedding.
* The PDF/OCR engines are collaborators: a page carries the result of
  `page.extract_text()` (`Option String`, `None` when absent) and the
  rendered image `page.to_image().annotated`; the OCR engine is an oracle
  from (image, language) to recognised text.
* `time.sleep` is modelled by recording the slept delays in order;
  `print` calls are not modelled (no control flow depends on them).
-/

/-- Python's emptiness test `not text.strip()`: true exactly when the text
is empty or consists only of whitespace characters. -/
def isBlank (text : String) : Bool :=
  text.toList.all Char.isWhitespace

/-- Python's substring test `pat in s`, on the underlying character lists. -/
def strContains (s pat : String) : Bool :=
  (List.range (s.length + 1)).any fun i => pat.toList.isPrefixOf (s.toList.drop i)

/-- The textual marker `convert_text_to_speech` searches for in a `gTTSError`
message to classify it as a rate-limit failure (`src/main.py:85`). -/
def rateLimitMarker : String := "429 (Too Many Requests)"

/-- Outcome of one synthesis attempt (`gTTS(text, lang)` + `tts.save(...)`):
it succeeds, raises a `gTTSError` with some message, or raises any other
exception. -/
inductive SynthOutcome where
  | success : SynthOutcome
  | gttsError (msg : String) : SynthOutcome
  | otherError (msg : String) : SynthOutcome
deriving DecidableEq, Repr

/-- A synthesis oracle: what the service does on each (text, language,
attempt-index) triple.  Attempt indices count from 0 within one call. -/
def SynthOracle : Type := String → String → Nat → SynthOutcome

/-- An oracle for runs in which the service always succeeds (no rate
limiting, no errors). -/
def successOracle : SynthOracle := fun _ _ _ => SynthOutcome.success

/-- Whether an attempt outcome is the rate-limit condition the code retries
on: a `gTTSError` whose message contains the 429 marker. -/
def SynthOutcome.isRateLimited : SynthOutcome → Bool
  | .success => false
  | .gttsError msg => strContains msg rateLimitMarker
  | .otherError _ => false

/-- The message of a failing outcome (the exception that would be
re-raised); `""` for success. -/
def SynthOutcome.errMsg : SynthOutcome → String
  | .success => ""
  | .gttsError msg => msg
  | .otherError msg => msg

/-- Errors `convert_text_to_speech` can raise: a re-raised service error, or
the terminal `RuntimeError("Failed to convert text to speech after retries")`. -/
inductive TTSError where
  | service (msg : String) : TTSError
  | retriesExhausted : TTSError
deriving DecidableEq, Repr

/-- `true` exactly on a re-raised underlying service error; the terminal
retry-exhaustion `RuntimeError` is not a service error. -/
def TTSError.isServiceFailure : TTSError → Bool
  | .service _ => true
  | .retriesExhausted => false

instance {ε α : Type} [DecidableEq ε] [DecidableEq α] : DecidableEq (Except ε α) := fun a b =>
  match a, b with
  | .ok a, .ok b =>
      if h : a = b then .isTrue (by rw [h]) else .isFalse (by simp [h])
  | .error a, .error b =>
      if h : a = b then .isTrue (by rw [h]) else .isFalse (by simp [h])
  | .ok _, .error _ => .isFalse (by simp)
  | .error _, .ok _ => .isFalse (by simp)

/-- Observable result of one `convert_text_to_speech` call: the returned
path or raised error, the sleeps performed (in order), the number of
synthesis attempts made, and the filesystem afterwards. -/
structure ConvertResult where
  result : Except TTSError String
  sleeps : List Nat
  attempts : Nat
  fs : List String
deriving DecidableEq, Repr

/-- Function to generate a unique cache key based on text content
(`generate_cache_key`, `src/main.py:28`).  The md5 hex digest is an
external library; it is modelled as a deterministic string fingerprint. -/
def generate_cache_key (text : String) : String :=
  toString text.hash

/-- Function to check if an audio file has already been generated
(`is_cached`, `src/main.py:41`).  Defined in the source but never called:
`convert_text_to_speech` tests path existence directly. -/
def is_cached (cache_key : String) (folder_path : String) (fs : List String) : Bool :=
  (folder_path ++ "/" ++ cache_key ++ ".mp3") ∈ fs

/-- The retry loop `for attempt in range(max_retries)` of
`convert_text_to_speech` (`src/main.py:79-94`), recursing on the number of
remaining iterations.  `tryOnce` is the oracle already applied to the text
and language; `attemptIdx` is the current value of `attempt`.  On success
the file is saved and the path returned; on a rate-limited `gTTSError` the
code sleeps `retry_delay` then doubles it; any other error is re-raised;
an exhausted loop falls through to `raise RuntimeError(...)`. -/
def convertLoop (tryOnce : Nat → SynthOutcome) (path : String) (fs : List String)
    (retry_delay : Nat) (attemptIdx : Nat) : Nat → ConvertResult
  | 0 => { result := .error .retriesExhausted, sleeps := [], attempts := 0, fs := fs }
  | remaining + 1 =>
    match tryOnce attemptIdx with
    | .success =>
        { result := .ok path, sleeps := [], attempts := 1, fs := fs.insert path }
    | .gttsError msg =>
        if strContains msg rateLimitMarker then
          let rest := convertLoop tryOnce path fs (retry_delay * 2) (attemptIdx + 1) remaining
          { result := rest.result, sleeps := retry_delay :: rest.sleeps,
            attempts := rest.attempts + 1, fs := rest.fs }
        else
          { result := .error (.service msg), sleeps := [], attempts := 1, fs := fs }
    | .otherError msg =>
        { result := .error (.service msg), sleeps := [], attempts := 1, fs := fs }

/-- Function to convert text to speech (`convert_text_to_speech`,
`src/main.py:55-94`).  Builds `<cache_folder_path>/<filename>.mp3`; if it
already exists, returns it without any synthesis attempt; otherwise runs
the retry loop.  `max_retries` is a Python `int`, so it may be negative;
`range(max_retries)` then has `max_retries.toNat` iterations. -/
def convert_text_to_speech (oracle : SynthOracle) (text : String)
    (filename_without_extension : String) (cache_folder_path : String)
    (language : String) (retry_delay : Nat) (max_retries : Int)
    (fs : List String) : ConvertResult :=
  let audio_file_path := cache_folder_path ++ "/" ++ filename_without_extension ++ ".mp3"
  if audio_file_path ∈ fs then
    { result := .ok audio_file_path, sleeps := [], attempts := 0, fs := fs }
  else
    convertLoop (oracle text language) audio_file_path fs retry_delay 0 max_retries.toNat

/-- The audio path a call with this filename and folder addresses. -/
def audioPathOf (cache_folder_path filename_without_extension : String) : String :=
  cache_folder_path ++ "/" ++ filename_without_extension ++ ".mp3"

/-- The delays slept by `k` consecutive rate-limited attempts starting from
initial delay `retry_delay`: `retry_delay, 2*retry_delay, 4*retry_delay, …`. -/
def backoffSleeps (retry_delay : Nat) (k : Nat) : List Nat :=
  (List.range k).map fun i => retry_delay * 2 ^ i

/-- A rendered page image (`page.to_image().annotated`): a PIL image with a
colour mode and opaque pixel content. -/
structure PageImage where
  mode : String
  content : Nat
deriving DecidableEq, Repr

/-- `pil_image.convert('RGB')` — changes the colour mode, keeps the content. -/
def PageImage.convertRGB (img : PageImage) : PageImage :=
  { img with mode := "RGB" }

/-- One PDF page as seen through pdfplumber: `page.extract_text()` may be
absent (`none`, Python `None`) or any string (possibly empty), and the page
can be rendered to an image. -/
structure PDFPage where
  extractedText : Option String
  renderedImage : PageImage
deriving DecidableEq, Repr

/-- An OCR engine oracle: `pytesseract.image_to_string(image, lang)`. -/
def OCREngine : Type := PageImage → String → String

/-- The OCR fallback branch of `extract_text_from_pdf_with_ocr`
(`src/main.py:114-125`): render the page, normalise the mode to `'RGB'` when
it differs, and run OCR with `lang='eng'`.  The JPEG re-encode/re-open
round-trip (`src/main.py:120-123`) hands the same RGB image to the OCR
engine and is modelled as the identity on the image. -/
def ocrPage (ocr : OCREngine) (page : PDFPage) : String :=
  let pil_image := page.renderedImage
  let pil_image := if pil_image.mode ≠ "RGB" then pil_image.convertRGB else pil_image
  ocr pil_image "eng"

/-- Function to extract text from PDF using OCR
(`extract_text_from_pdf_with_ocr`, `src/main.py:98-126`): fold over the
pages in document order, appending the native text when it is truthy
(present and non-empty) and the OCR fallback otherwise. -/
def extract_text_from_pdf_with_ocr (ocr : OCREngine) (pages : List PDFPage) : String :=
  pages.foldl
    (fun text page =>
      match page.extractedText with
      | some page_text =>
          if page_text = "" then text ++ ocrPage ocr page else text ++ page_text
      | none => text ++ ocrPage ocr page)
    ""

/-- The text one page contributes to the extraction result: its native text
when truthy, its OCR fallback output otherwise. -/
def pageResult (ocr : OCREngine) (page : PDFPage) : String :=
  match page.extractedText with
  | some page_text => if page_text = "" then ocrPage ocr page else page_text
  | none => ocrPage ocr page

/-- The concatenation, in page order with no separator, of each page's
result. -/
def concatPageResults (ocr : OCREngine) : List PDFPage → String
  | [] => ""
  | page :: pages => pageResult ocr page ++ concatPageResults ocr pages

/-- An input PDF document: its stem (filename without extension) and pages. -/
structure PDFDoc where
  stem : String
  pages : List PDFPage
deriving DecidableEq, Repr

/-- Function to save extracted text to a file (`save_text_to_file`,
`src/main.py:16-24`): after the call the path exists (created or
overwritten). -/
def save_text_to_file (output_file_path : String) (fs : List String) : List String :=
  fs.insert output_file_path

/-- Observable result of one `process_pdf` call. -/
structure ProcessResult where
  result : Except TTSError Unit
  sleeps : List Nat
  attempts : Nat
  fs : List String
deriving DecidableEq, Repr

/-- Main function to process each PDF (`process_pdf`, `src/main.py:130-156`):
extract the text; if it is empty or whitespace-only (`not text.strip()`)
skip without creating anything; otherwise write
`<output_folder>/<stem>.txt`, then call `convert_text_to_speech` with the
stem as filename.  Errors from synthesis propagate. -/
def process_pdf (ocr : OCREngine) (oracle : SynthOracle) (doc : PDFDoc)
    (output_folder_path audio_folder_path : String) (language : String)
    (retry_delay : Nat) (max_retries : Int) (fs : List String) : ProcessResult :=
  let filename_without_extension := doc.stem
  let text := extract_text_from_pdf_with_ocr ocr doc.pages
  if isBlank text then
    { result := .ok (), sleeps := [], attempts := 0, fs := fs }
  else
    let output_file_path := output_folder_path ++ "/" ++ filename_without_extension ++ ".txt"
    let fs := save_text_to_file output_file_path fs
    let r := convert_text_to_speech oracle text filename_without_extension
      audio_folder_path language retry_delay max_retries fs
    { result := r.result.map fun _ => (), sleeps := r.sleeps,
      attempts := r.attempts, fs := r.fs }

/-- The text path `process_pdf` writes for a document. -/
def txtPathOf (output_folder_path stem : String) : String :=
  output_folder_path ++ "/" ++ stem ++ ".txt"

/-- Whether a document is skipped: its extracted text is empty or
whitespace-only. -/
def docSkipped (ocr : OCREngine) (doc : PDFDoc) : Bool :=
  isBlank (extract_text_from_pdf_with_ocr ocr doc.pages)

/-- Observable result of one batch run. -/
structure BatchResult where
  result : Except TTSError Unit
  attempts : Nat
  fs : List String
deriving DecidableEq, Repr

/-- The sequential branch of `main` (`src/main.py:190-193`): process the
discovered documents one at a time; an unhandled error aborts the rest of
the batch.  `attempts` totals the synthesis attempts across documents. -/
def runSequential (ocr : OCREngine) (oracle : SynthOracle) (docs : List PDFDoc)
    (output_folder_path audio_folder_path : String) (language : String)
    (retry_delay : Nat) (max_retries : Int) (fs : List String) : BatchResult :=
  match docs with
  | [] => { result := .ok (), attempts := 0, fs := fs }
  | doc :: rest =>
    let r := process_pdf ocr oracle doc output_folder_path audio_folder_path
      language retry_delay max_retries fs
    match r.result with
    | .error e => { result := .error e, attempts := r.attempts, fs := r.fs }
    | .ok _ =>
      let rs := runSequential ocr oracle rest output_folder_path audio_folder_path
        language retry_delay max_retries r.fs
      { result := rs.result, attempts := r.attempts + rs.attempts, fs := rs.fs }

/-! ## Helper lemmas about the retry loop -/

theorem backoffSleeps_succ (rd k : Nat) :
    backoffSleeps rd (k + 1) = rd :: backoffSleeps (rd * 2) k := by
  simp only [backoffSleeps, List.range_succ_eq_map, List.map_cons, List.map_map, pow_zero,
    Nat.mul_one]
  congr 1
  apply List.map_congr_left
  intro i _
  simp only [Function.comp_apply, Nat.succ_eq_add_one]
  ring

/-- Running the loop across `k` consecutive rate-limited attempts: it sleeps
the doubling backoff delays, counts `k` attempts, and continues from attempt
`base + k` with the delay multiplied by `2 ^ k`. -/
theorem convertLoop_rateLimited_run (tryOnce : Nat → SynthOutcome) (path : String)
    (fs : List String) :
    ∀ (k remaining base retry_delay : Nat), k ≤ remaining →
      (∀ i, i < k → (tryOnce (base + i)).isRateLimited = true) →
      convertLoop tryOnce path fs retry_delay base remaining =
        { result := (convertLoop tryOnce path fs (retry_delay * 2 ^ k) (base + k)
            (remaining - k)).result,
          sleeps := backoffSleeps retry_delay k ++ (convertLoop tryOnce path fs
            (retry_delay * 2 ^ k) (base + k) (remaining - k)).sleeps,
          attempts := k + (convertLoop tryOnce path fs (retry_delay * 2 ^ k) (base + k)
            (remaining - k)).attempts,
          fs := (convertLoop tryOnce path fs (retry_delay * 2 ^ k) (base + k)
            (remaining - k)).fs } := by
  intro k
  induction k with
  | zero =>
    intro remaining base retry_delay _ _
    simp [backoffSleeps]
  | succ k ih =>
    intro remaining base retry_delay hle hrate
    obtain ⟨rem, rfl⟩ : ∃ rem, remaining = rem + 1 := by
      cases remaining with
      | zero => omega
      | succ r => exact ⟨r, rfl⟩
    have h0 : (tryOnce base).isRateLimited = true := by
      have := hrate 0 (Nat.succ_pos k)
      simpa using this
    cases htry : tryOnce base with
    | success => rw [htry] at h0; simp [SynthOutcome.isRateLimited] at h0
    | otherError msg => rw [htry] at h0; simp [SynthOutcome.isRateLimited] at h0
    | gttsError msg =>
      have hmark : strContains msg rateLimitMarker = true := by
        rw [htry] at h0; simpa [SynthOutcome.isRateLimited] using h0
      have step : convertLoop tryOnce path fs retry_delay base (rem + 1) =
          { result := (convertLoop tryOnce path fs (retry_delay * 2) (base + 1) rem).result,
            sleeps := retry_delay ::
              (convertLoop tryOnce path fs (retry_delay * 2) (base + 1) rem).sleeps,
            attempts :=
              (convertLoop tryOnce path fs (retry_delay * 2) (base + 1) rem).attempts + 1,
            fs := (convertLoop tryOnce path fs (retry_delay * 2) (base + 1) rem).fs } := by
        simp [convertLoop, htry, hmark]
      have hshift : ∀ i, i < k → (tryOnce (base + 1 + i)).isRateLimited = true := by
        intro i hi
        have := hrate (i + 1) (by omega)
        simpa [Nat.add_assoc, Nat.add_comm 1 i] using this
      have hrec := ih rem (base + 1) (retry_delay * 2) (by omega) hshift
      rw [step, hrec]
      have e1 : retry_delay * 2 * 2 ^ k = retry_delay * 2 ^ (k + 1) := by ring
      have e2 : base + 1 + k = base + (k + 1) := by omega
      have e3 : rem - k = rem + 1 - (k + 1) := by omega
      rw [e1, e2, e3, backoffSleeps_succ]
      simp [Nat.add_comm, Nat.add_assoc, Nat.add_left_comm]

/-- One successful attempt: the file is saved and the path returned. -/
theorem convertLoop_success_head (tryOnce : Nat → SynthOutcome) (path : String)
    (fs : List String) (retry_delay base rem : Nat)
    (h : tryOnce base = .success) :
    convertLoop tryOnce path fs retry_delay base (rem + 1) =
      { result := .ok path, sleeps := [], attempts := 1, fs := fs.insert path } := by
  simp [convertLoop, h]

/-- One attempt failing with a non-rate-limit error: the error is re-raised
with no sleep, no further attempt, and no file written. -/
theorem convertLoop_failure_head (tryOnce : Nat → SynthOutcome) (path : String)
    (fs : List String) (retry_delay base rem : Nat)
    (hnr : (tryOnce base).isRateLimited = false) (hns : tryOnce base ≠ .success) :
    convertLoop tryOnce path fs retry_delay base (rem + 1) =
      { result := .error (.service (tryOnce base).errMsg), sleeps := [], attempts := 1,
        fs := fs } := by
  cases htry : tryOnce base with
  | success => exact absurd htry hns
  | gttsError msg =>
    have hmark : strContains msg rateLimitMarker = false := by
      rw [htry] at hnr; simpa [SynthOutcome.isRateLimited] using hnr
    simp [convertLoop, htry, hmark, SynthOutcome.errMsg]
  | otherError msg =>
    simp [convertLoop, htry, SynthOutcome.errMsg]

/-- With no cached file, `convert_text_to_speech` is the retry loop started
at attempt 0 with `range(max_retries)` iterations. -/
theorem convert_not_cached (oracle : SynthOracle) (text fn folder lang : String)
    (rd : Nat) (mr : Int) (fs : List String)
    (h : audioPathOf folder fn ∉ fs) :
    convert_text_to_speech oracle text fn folder lang rd mr fs =
      convertLoop (oracle text lang) (audioPathOf folder fn) fs rd 0 mr.toNat := by
  unfold convert_text_to_speech audioPathOf at *
  simp [h]

/-! ## Claim theorems -/

/-- C1: for every document whose extracted text is empty or whitespace-only,
`process_pdf` creates no output at all — the filesystem is unchanged (no
text file, no audio file), no synthesis attempt is made and no sleep
occurs. -/
theorem C1_empty_text_creates_nothing (ocr : OCREngine) (oracle : SynthOracle)
    (doc : PDFDoc) (outF audF lang : String) (rd : Nat) (mr : Int) (fs : List String)
    (h : isBlank (extract_text_from_pdf_with_ocr ocr doc.pages) = true) :
    process_pdf ocr oracle doc outF audF lang rd mr fs =
      { result := .ok (), sleeps := [], attempts := 0, fs := fs } := by
  simp [process_pdf, h]

/-- Witness for C1: a one-page document whose page text is whitespace only. -/
theorem C1_empty_text_creates_nothing_witness :
    isBlank (extract_text_from_pdf_with_ocr (fun _ _ => "")
      (PDFDoc.mk "scan" [PDFPage.mk (some " \n\t ") (PageImage.mk "RGB" 0)]).pages) = true ∧
    process_pdf (fun _ _ => "") successOracle
        (PDFDoc.mk "scan" [PDFPage.mk (some " \n\t ") (PageImage.mk "RGB" 0)])
        "out" "audio" "en" 5 10 ["out/other.txt"] =
      { result := .ok (), sleeps := [], attempts := 0, fs := ["out/other.txt"] } :=
  ⟨by decide, C1_empty_text_creates_nothing _ _ _ _ _ _ _ _ _ (by decide)⟩

/-- C2: if `<folder>/<filename>.mp3` already exists, `convert_text_to_speech`
makes no synthesis attempt and returns that path; the outcome is the same
for any two texts (and any service behaviour) with the same filename and
folder — the cache decision ignores the text and the content-hash key
deriver. -/
theorem C2_cache_keyed_by_filename (oracle₁ oracle₂ : SynthOracle)
    (text₁ text₂ fn folder lang : String) (rd : Nat) (mr : Int) (fs : List String)
    (h : audioPathOf folder fn ∈ fs) :
    convert_text_to_speech oracle₁ text₁ fn folder lang rd mr fs =
      { result := .ok (audioPathOf folder fn), sleeps := [], attempts := 0, fs := fs } ∧
    convert_text_to_speech oracle₂ text₂ fn folder lang rd mr fs =
      { result := .ok (audioPathOf folder fn), sleeps := [], attempts := 0, fs := fs } := by
  unfold convert_text_to_speech audioPathOf at *
  exact ⟨by simp [h], by simp [h]⟩

/-- Witness for C2: two different texts, same filename and folder, cached
file present. -/
theorem C2_cache_keyed_by_filename_witness :
    audioPathOf "audio" "book" ∈ ["audio/book.mp3"] ∧
    (convert_text_to_speech successOracle "old text" "book" "audio" "en" 5 10
        ["audio/book.mp3"] =
      { result := .ok (audioPathOf "audio" "book"), sleeps := [], attempts := 0,
        fs := ["audio/book.mp3"] } ∧
    convert_text_to_speech (fun _ _ _ => SynthOutcome.otherError "down") "completely new text"
        "book" "audio" "en" 5 10 ["audio/book.mp3"] =
      { result := .ok (audioPathOf "audio" "book"), sleeps := [], attempts := 0,
        fs := ["audio/book.mp3"] }) :=
  ⟨by decide,
   C2_cache_keyed_by_filename successOracle (fun _ _ _ => SynthOutcome.otherError "down")
     "old text" "completely new text" "book" "audio" "en" 5 10 ["audio/book.mp3"] (by decide)⟩

/-- C9: with `max_retries ≤ 0` and no cached file, `convert_text_to_speech`
raises the terminal retry-exhaustion error with zero synthesis attempts and
zero sleeps. -/
theorem C9_nonpositive_max_retries (oracle : SynthOracle) (text fn folder lang : String)
    (rd : Nat) (mr : Int) (fs : List String)
    (hmr : mr ≤ 0) (h : audioPathOf folder fn ∉ fs) :
    convert_text_to_speech oracle text fn folder lang rd mr fs =
      { result := .error .retriesExhausted, sleeps := [], attempts := 0, fs := fs } := by
  have h0 : mr.toNat = 0 := Int.toNat_of_nonpos hmr
  unfold convert_text_to_speech audioPathOf at *
  simp [h, h0, convertLoop]

/-- Witness for C9: `max_retries = 0`, empty filesystem. -/
theorem C9_nonpositive_max_retries_witness :
    ((0 : Int) ≤ 0 ∧ audioPathOf "audio" "book" ∉ ([] : List String)) ∧
    convert_text_to_speech successOracle "some text" "book" "audio" "en" 5 0 [] =
      { result := .error .retriesExhausted, sleeps := [], attempts := 0, fs := [] } :=
  ⟨⟨by decide, by decide⟩,
   C9_nonpositive_max_retries successOracle "some text" "book" "audio" "en" 5 0 []
     (by decide) (by decide)⟩

/-- C3: if the service is rate-limited on the first `N - 1` attempts and
succeeds on attempt `N` (`1 ≤ N ≤ max_retries`), the call returns the output
path after exactly `N` attempts, having slept the doubling delays
`retry_delay, 2*retry_delay, 4*retry_delay, …` between attempts. -/
theorem C3_backoff_until_success (oracle : SynthOracle) (text fn folder lang : String)
    (rd : Nat) (mr : Int) (fs : List String) (N : Nat)
    (h1 : 1 ≤ N) (h2 : (N : Int) ≤ mr)
    (hrate : ∀ i, i < N - 1 → (oracle text lang i).isRateLimited = true)
    (hsucc : oracle text lang (N - 1) = .success)
    (hnc : audioPathOf folder fn ∉ fs) :
    convert_text_to_speech oracle text fn folder lang rd mr fs =
      { result := .ok (audioPathOf folder fn), sleeps := backoffSleeps rd (N - 1),
        attempts := N, fs := fs.insert (audioPathOf folder fn) } := by
  rw [convert_not_cached oracle text fn folder lang rd mr fs hnc]
  have key := convertLoop_rateLimited_run (oracle text lang) (audioPathOf folder fn) fs
    (N - 1) mr.toNat 0 rd (by omega) (by intro i hi; simpa using hrate i hi)
  rw [key]
  obtain ⟨s, hs⟩ : ∃ s, mr.toNat - (N - 1) = s + 1 := ⟨mr.toNat - N, by omega⟩
  rw [hs]
  rw [convertLoop_success_head (oracle text lang) (audioPathOf folder fn) fs
    (rd * 2 ^ (N - 1)) (0 + (N - 1)) s (by simpa using hsucc)]
  simp only [List.append_nil]
  congr 1
  omega

/-- Witness for C3 at `N = 2`: one rate-limited attempt, then success. -/
theorem C3_backoff_until_success_witness :
    (1 ≤ 2 ∧ ((2 : Nat) : Int) ≤ 10 ∧
      (∀ i, i < 2 - 1 →
        ((fun (_ _ : String) i =>
          if i = 0 then SynthOutcome.gttsError "gTTS error: 429 (Too Many Requests)"
          else SynthOutcome.success) "text" "en" i).isRateLimited = true) ∧
      (fun (_ _ : String) i =>
          if i = 0 then SynthOutcome.gttsError "gTTS error: 429 (Too Many Requests)"
          else SynthOutcome.success) "text" "en" (2 - 1) = SynthOutcome.success ∧
      audioPathOf "audio" "book" ∉ ([] : List String)) ∧
    convert_text_to_speech
        (fun (_ _ : String) i =>
          if i = 0 then SynthOutcome.gttsError "gTTS error: 429 (Too Many Requests)"
          else SynthOutcome.success) "text" "book" "audio" "en" 5 10 [] =
      { result := .ok (audioPathOf "audio" "book"), sleeps := backoffSleeps 5 (2 - 1),
        attempts := 2, fs := ([] : List String).insert (audioPathOf "audio" "book") } :=
  ⟨⟨by decide, by decide, by decide, by decide, by decide⟩,
   C3_backoff_until_success
     (fun (_ _ : String) i =>
       if i = 0 then SynthOutcome.gttsError "gTTS error: 429 (Too Many Requests)"
       else SynthOutcome.success)
     "text" "book" "audio" "en" 5 10 [] 2
     (by decide) (by decide) (by decide) (by decide) (by decide)⟩

/-- C4: if every attempt is rate-limited, the call makes exactly
`max_retries` attempts and raises the terminal retry-exhaustion error,
which is not a re-raised service error. -/
theorem C4_retries_exhausted (oracle : SynthOracle) (text fn folder lang : String)
    (rd : Nat) (mr : Int) (fs : List String)
    (hmr : 0 ≤ mr)
    (hrate : ∀ i, i < mr.toNat → (oracle text lang i).isRateLimited = true)
    (hnc : audioPathOf folder fn ∉ fs) :
    (convert_text_to_speech oracle text fn folder lang rd mr fs =
      { result := .error .retriesExhausted, sleeps := backoffSleeps rd mr.toNat,
        attempts := mr.toNat, fs := fs }) ∧
    (mr.toNat : Int) = mr ∧ TTSError.isServiceFailure .retriesExhausted = false := by
  refine ⟨?_, Int.toNat_of_nonneg hmr, rfl⟩
  rw [convert_not_cached oracle text fn folder lang rd mr fs hnc]
  have key := convertLoop_rateLimited_run (oracle text lang) (audioPathOf folder fn) fs
    mr.toNat mr.toNat 0 rd le_rfl (by intro i hi; simpa using hrate i hi)
  rw [key]
  simp [convertLoop, Nat.sub_self]

/-- Witness for C4: every attempt rate-limited, `max_retries = 3`. -/
theorem C4_retries_exhausted_witness :
    ((0 : Int) ≤ 3 ∧
      (∀ i, i < (3 : Int).toNat →
        ((fun (_ _ : String) (_ : Nat) =>
          SynthOutcome.gttsError "429 (Too Many Requests) from TTS API") "text" "en"
            i).isRateLimited = true) ∧
      audioPathOf "audio" "book" ∉ ([] : List String)) ∧
    (convert_text_to_speech
        (fun (_ _ : String) (_ : Nat) =>
          SynthOutcome.gttsError "429 (Too Many Requests) from TTS API")
        "text" "book" "audio" "en" 5 3 [] =
      { result := .error .retriesExhausted, sleeps := backoffSleeps 5 (3 : Int).toNat,
        attempts := (3 : Int).toNat, fs := ([] : List String) }) ∧
    (((3 : Int).toNat : Int) = 3) ∧ TTSError.isServiceFailure .retriesExhausted = false :=
  ⟨⟨by decide, by decide, by decide⟩,
   C4_retries_exhausted
     (fun (_ _ : String) (_ : Nat) =>
       SynthOutcome.gttsError "429 (Too Many Requests) from TTS API")
     "text" "book" "audio" "en" 5 3 [] (by decide) (by decide) (by decide)⟩

/-- C5: an attempt failing with anything other than the rate-limit condition
re-raises that error immediately: the attempt counter stops at that attempt,
no sleep follows it (the recorded sleeps are exactly those of the earlier
rate-limited attempts), and the raised error is the underlying service
error. -/
theorem C5_other_error_raises_immediately (oracle : SynthOracle)
    (text fn folder lang : String) (rd : Nat) (mr : Int) (fs : List String) (k : Nat)
    (hk : k < mr.toNat)
    (hbefore : ∀ i, i < k → (oracle text lang i).isRateLimited = true)
    (hnr : (oracle text lang k).isRateLimited = false)
    (hns : oracle text lang k ≠ .success)
    (hnc : audioPathOf folder fn ∉ fs) :
    convert_text_to_speech oracle text fn folder lang rd mr fs =
      { result := .error (.service (oracle text lang k).errMsg),
        sleeps := backoffSleeps rd k, attempts := k + 1, fs := fs } ∧
    TTSError.isServiceFailure (.service (oracle text lang k).errMsg) = true := by
  refine ⟨?_, rfl⟩
  rw [convert_not_cached oracle text fn folder lang rd mr fs hnc]
  have key := convertLoop_rateLimited_run (oracle text lang) (audioPathOf folder fn) fs
    k mr.toNat 0 rd (le_of_lt hk) (by intro i hi; simpa using hbefore i hi)
  rw [key]
  obtain ⟨s, hs⟩ : ∃ s, mr.toNat - k = s + 1 := ⟨mr.toNat - k - 1, by omega⟩
  rw [hs]
  rw [convertLoop_failure_head (oracle text lang) (audioPathOf folder fn) fs
    (rd * 2 ^ k) (0 + k) s (by simpa using hnr) (by simpa using hns)]
  simp

/-- Witness for C5 at `k = 1`: one rate-limited attempt, then a
non-rate-limit failure on the second attempt. -/
theorem C5_other_error_raises_immediately_witness :
    (1 < (10 : Int).toNat ∧
      (∀ i, i < 1 →
        ((fun (_ _ : String) i =>
          if i = 0 then SynthOutcome.gttsError "429 (Too Many Requests)"
          else SynthOutcome.otherError "connection reset") "text" "en" i).isRateLimited =
          true) ∧
      ((fun (_ _ : String) i =>
          if i = 0 then SynthOutcome.gttsError "429 (Too Many Requests)"
          else SynthOutcome.otherError "connection reset") "text" "en" 1).isRateLimited =
        false ∧
      (fun (_ _ : String) i =>
          if i = 0 then SynthOutcome.gttsError "429 (Too Many Requests)"
          else SynthOutcome.otherError "connection reset") "text" "en" 1 ≠
        SynthOutcome.success ∧
      audioPathOf "audio" "book" ∉ ([] : List String)) ∧
    convert_text_to_speech
        (fun (_ _ : String) i =>
          if i = 0 then SynthOutcome.gttsError "429 (Too Many Requests)"
          else SynthOutcome.otherError "connection reset") "text" "book" "audio" "en" 5 10
        [] =
      { result := .error (.service ((fun (_ _ : String) i =>
          if i = 0 then SynthOutcome.gttsError "429 (Too Many Requests)"
          else SynthOutcome.otherError "connection reset") "text" "en" 1).errMsg),
        sleeps := backoffSleeps 5 1, attempts := 1 + 1, fs := ([] : List String) } ∧
    TTSError.isServiceFailure (.service ((fun (_ _ : String) i =>
        if i = 0 then SynthOutcome.gttsError "429 (Too Many Requests)"
        else SynthOutcome.otherError "connection reset") "text" "en" 1).errMsg) = true :=
  ⟨⟨by decide, by decide, by decide, by decide, by decide⟩,
   C5_other_error_raises_immediately
     (fun (_ _ : String) i =>
       if i = 0 then SynthOutcome.gttsError "429 (Too Many Requests)"
       else SynthOutcome.otherError "connection reset")
     "text" "book" "audio" "en" 5 10 [] 1
     (by decide) (by decide) (by decide) (by decide) (by decide)⟩

/-- The extraction fold, started from any accumulator, appends the
concatenated page results to it. -/
theorem extract_foldl_eq (ocr : OCREngine) :
    ∀ (pages : List PDFPage) (init : String),
      pages.foldl
        (fun text page =>
          match page.extractedText with
          | some page_text =>
              if page_text = "" then text ++ ocrPage ocr page else text ++ page_text
          | none => text ++ ocrPage ocr page)
        init = init ++ concatPageResults ocr pages := by
  intro pages
  induction pages with
  | nil => intro init; simp [concatPageResults]
  | cons page rest ih =>
    intro init
    rw [List.foldl_cons, ih]
    cases hx : page.extractedText with
    | none => simp [concatPageResults, pageResult, hx, String.append_assoc]
    | some page_text =>
      by_cases he : page_text = "" <;>
        simp [concatPageResults, pageResult, hx, he, String.append_assoc]

/-- C6: `extract_text_from_pdf_with_ocr` returns the concatenation, in page
order with no separator, of each page's result — the native text when it is
present and non-empty, and otherwise the OCR output (English model) of the
page image after normalisation to RGB.  In particular, a document whose
first page has text `t ≠ ""` and whose second page has none yields `t`
followed by the second page's OCR output. -/
theorem C6_page_order_with_ocr_fallback (ocr : OCREngine) (pages : List PDFPage)
    (t : String) (img₁ img₂ : PageImage) (ht : t ≠ "") :
    extract_text_from_pdf_with_ocr ocr pages = concatPageResults ocr pages ∧
    extract_text_from_pdf_with_ocr ocr
        [PDFPage.mk (some t) img₁, PDFPage.mk none img₂] =
      t ++ ocr (if img₂.mode ≠ "RGB" then img₂.convertRGB else img₂) "eng" ∧
    (if img₂.mode ≠ "RGB" then img₂.convertRGB else img₂).mode = "RGB" := by
  refine ⟨?_, ?_, ?_⟩
  · rw [extract_text_from_pdf_with_ocr, extract_foldl_eq, String.empty_append]
  · rw [extract_text_from_pdf_with_ocr, extract_foldl_eq, String.empty_append]
    simp [concatPageResults, pageResult, ocrPage, ht, String.append_empty]
  · by_cases h : img₂.mode = "RGB" <;> simp [PageImage.convertRGB, h]

/-- Witness for C6: a two-page document, page 1 with native text, page 2
with none and a CMYK rendering that must be normalised. -/
theorem C6_page_order_with_ocr_fallback_witness :
    ("Hello" ≠ "") ∧
    (extract_text_from_pdf_with_ocr (fun img _ => toString img.content)
        [PDFPage.mk (some "Hello") (PageImage.mk "RGB" 1),
         PDFPage.mk none (PageImage.mk "CMYK" 2)] =
      concatPageResults (fun img _ => toString img.content)
        [PDFPage.mk (some "Hello") (PageImage.mk "RGB" 1),
         PDFPage.mk none (PageImage.mk "CMYK" 2)] ∧
    extract_text_from_pdf_with_ocr (fun img _ => toString img.content)
        [PDFPage.mk (some "Hello") (PageImage.mk "RGB" 1),
         PDFPage.mk none (PageImage.mk "CMYK" 2)] =
      "Hello" ++ (fun img _ => toString img.content)
        (if (PageImage.mk "CMYK" 2).mode ≠ "RGB" then (PageImage.mk "CMYK" 2).convertRGB
         else PageImage.mk "CMYK" 2) "eng" ∧
    (if (PageImage.mk "CMYK" 2).mode ≠ "RGB" then (PageImage.mk "CMYK" 2).convertRGB
     else PageImage.mk "CMYK" 2).mode = "RGB") :=
  ⟨by decide,
   C6_page_order_with_ocr_fallback (fun img _ => toString img.content)
     [PDFPage.mk (some "Hello") (PageImage.mk "RGB" 1),
      PDFPage.mk none (PageImage.mk "CMYK" 2)]
     "Hello" (PageImage.mk "RGB" 1) (PageImage.mk "CMYK" 2) (by decide)⟩

/-- When the loop ends in an error (re-raise or exhaustion), it has written
no file: the filesystem is unchanged. -/
theorem convertLoop_error_fs (tryOnce : Nat → SynthOutcome) (path : String)
    (fs : List String) :
    ∀ (remaining retry_delay base : Nat) (e : TTSError),
      (convertLoop tryOnce path fs retry_delay base remaining).result = .error e →
      (convertLoop tryOnce path fs retry_delay base remaining).fs = fs := by
  intro remaining
  induction remaining with
  | zero => intro rd base e _; rfl
  | succ n ih =>
    intro rd base e herr
    cases htry : tryOnce base with
    | success =>
      rw [convertLoop_success_head tryOnce path fs rd base n htry] at herr
      simp at herr
    | otherError msg => simp [convertLoop, htry]
    | gttsError msg =>
      by_cases hmark : strContains msg rateLimitMarker
      · have hstep : convertLoop tryOnce path fs rd base (n + 1) =
            { result := (convertLoop tryOnce path fs (rd * 2) (base + 1) n).result,
              sleeps := rd :: (convertLoop tryOnce path fs (rd * 2) (base + 1) n).sleeps,
              attempts := (convertLoop tryOnce path fs (rd * 2) (base + 1) n).attempts + 1,
              fs := (convertLoop tryOnce path fs (rd * 2) (base + 1) n).fs } := by
          simp [convertLoop, htry, hmark]
        rw [hstep] at herr ⊢
        exact ih (rd * 2) (base + 1) e herr
      · simp [convertLoop, htry, hmark]

/-- For a document with non-blank text, `process_pdf` writes the text file
and then hands the grown filesystem to `convert_text_to_speech`. -/
theorem process_pdf_nonblank (ocr : OCREngine) (oracle : SynthOracle) (doc : PDFDoc)
    (outF audF lang : String) (rd : Nat) (mr : Int) (fs : List String)
    (hne : isBlank (extract_text_from_pdf_with_ocr ocr doc.pages) = false) :
    process_pdf ocr oracle doc outF audF lang rd mr fs =
      { result := (convert_text_to_speech oracle
            (extract_text_from_pdf_with_ocr ocr doc.pages) doc.stem audF lang rd mr
            (fs.insert (txtPathOf outF doc.stem))).result.map fun _ => (),
        sleeps := (convert_text_to_speech oracle
            (extract_text_from_pdf_with_ocr ocr doc.pages) doc.stem audF lang rd mr
            (fs.insert (txtPathOf outF doc.stem))).sleeps,
        attempts := (convert_text_to_speech oracle
            (extract_text_from_pdf_with_ocr ocr doc.pages) doc.stem audF lang rd mr
            (fs.insert (txtPathOf outF doc.stem))).attempts,
        fs := (convert_text_to_speech oracle
            (extract_text_from_pdf_with_ocr ocr doc.pages) doc.stem audF lang rd mr
            (fs.insert (txtPathOf outF doc.stem))).fs } := by
  simp [process_pdf, hne, save_text_to_file, txtPathOf]

/-- C10: no atomicity across the two outputs — for a document with
non-blank text, the text file is written before synthesis is invoked, so
when synthesis raises, the text file is present in the final filesystem
while the audio file is not. -/
theorem C10_text_file_survives_synthesis_failure (ocr : OCREngine)
    (oracle : SynthOracle) (doc : PDFDoc) (outF audF lang : String) (rd : Nat)
    (mr : Int) (fs : List String) (e : TTSError)
    (hne : isBlank (extract_text_from_pdf_with_ocr ocr doc.pages) = false)
    (hdistinct : txtPathOf outF doc.stem ≠ audioPathOf audF doc.stem)
    (hnaudio : audioPathOf audF doc.stem ∉ fs)
    (herr : (process_pdf ocr oracle doc outF audF lang rd mr fs).result = .error e) :
    txtPathOf outF doc.stem ∈ (process_pdf ocr oracle doc outF audF lang rd mr fs).fs ∧
    audioPathOf audF doc.stem ∉ (process_pdf ocr oracle doc outF audF lang rd mr fs).fs := by
  rw [process_pdf_nonblank ocr oracle doc outF audF lang rd mr fs hne] at herr ⊢
  have hnc : audioPathOf audF doc.stem ∉ fs.insert (txtPathOf outF doc.stem) := by
    rw [List.mem_insert_iff]
    rintro (h | h)
    · exact hdistinct h.symm
    · exact hnaudio h
  rw [convert_not_cached oracle (extract_text_from_pdf_with_ocr ocr doc.pages) doc.stem
    audF lang rd mr (fs.insert (txtPathOf outF doc.stem)) hnc] at herr ⊢
  have hres : (convertLoop (oracle (extract_text_from_pdf_with_ocr ocr doc.pages) lang)
      (audioPathOf audF doc.stem) (fs.insert (txtPathOf outF doc.stem)) rd 0
      mr.toNat).result = .error e := by
    cases hx : (convertLoop (oracle (extract_text_from_pdf_with_ocr ocr doc.pages) lang)
        (audioPathOf audF doc.stem) (fs.insert (txtPathOf outF doc.stem)) rd 0
        mr.toNat).result with
    | ok v => rw [hx] at herr; simp [Except.map] at herr
    | error e' => rw [hx] at herr; simp [Except.map] at herr; rw [herr]
  rw [convertLoop_error_fs (oracle (extract_text_from_pdf_with_ocr ocr doc.pages) lang)
    (audioPathOf audF doc.stem) (fs.insert (txtPathOf outF doc.stem)) mr.toNat rd 0 e hres]
  exact ⟨List.mem_insert_self _ _, hnc⟩

/-- Witness for C10: a one-page document with text, a service that fails
with a non-rate-limit error on the only attempt. -/
theorem C10_text_file_survives_synthesis_failure_witness :
    (isBlank (extract_text_from_pdf_with_ocr (fun _ _ => "")
        (PDFDoc.mk "book" [PDFPage.mk (some "Hello") (PageImage.mk "RGB" 0)]).pages) =
        false ∧
      txtPathOf "out" "book" ≠ audioPathOf "audio" "book" ∧
      audioPathOf "audio" "book" ∉ ([] : List String) ∧
      (process_pdf (fun _ _ => "") (fun _ _ _ => SynthOutcome.otherError "boom")
          (PDFDoc.mk "book" [PDFPage.mk (some "Hello") (PageImage.mk "RGB" 0)])
          "out" "audio" "en" 5 10 []).result = .error (.service "boom")) ∧
    txtPathOf "out" "book" ∈
      (process_pdf (fun _ _ => "") (fun _ _ _ => SynthOutcome.otherError "boom")
        (PDFDoc.mk "book" [PDFPage.mk (some "Hello") (PageImage.mk "RGB" 0)])
        "out" "audio" "en" 5 10 []).fs ∧
    audioPathOf "audio" "book" ∉
      (process_pdf (fun _ _ => "") (fun _ _ _ => SynthOutcome.otherError "boom")
        (PDFDoc.mk "book" [PDFPage.mk (some "Hello") (PageImage.mk "RGB" 0)])
        "out" "audio" "en" 5 10 []).fs :=
  ⟨⟨by decide, by decide, by decide, by decide⟩,
   C10_text_file_survives_synthesis_failure (fun _ _ => "")
     (fun _ _ _ => SynthOutcome.otherError "boom")
     (PDFDoc.mk "book" [PDFPage.mk (some "Hello") (PageImage.mk "RGB" 0)])
     "out" "audio" "en" 5 10 [] (.service "boom")
     (by decide) (by decide) (by decide) (by decide)⟩

/-- With an always-successful service and at least one allowed attempt,
`process_pdf` succeeds and the filesystem grows by exactly the text and
audio paths of a non-skipped document. -/
theorem process_pdf_success (ocr : OCREngine) (doc : PDFDoc) (outF audF lang : String)
    (rd : Nat) (mr : Int) (fs : List String) (hmr : 1 ≤ mr) :
    (process_pdf ocr successOracle doc outF audF lang rd mr fs).result = .ok () ∧
    ∀ p, p ∈ (process_pdf ocr successOracle doc outF audF lang rd mr fs).fs ↔
      (p ∈ fs ∨ (docSkipped ocr doc = false ∧
        (p = txtPathOf outF doc.stem ∨ p = audioPathOf audF doc.stem))) := by
  by_cases hblank : isBlank (extract_text_from_pdf_with_ocr ocr doc.pages)
  · have hps : process_pdf ocr successOracle doc outF audF lang rd mr fs =
        { result := .ok (), sleeps := [], attempts := 0, fs := fs } := by
      simp [process_pdf, hblank]
    rw [hps]
    exact ⟨rfl, fun p => by simp [docSkipped, hblank]⟩
  · have hskip : docSkipped ocr doc = false := by
      simpa [docSkipped] using hblank
    rw [process_pdf_nonblank ocr successOracle doc outF audF lang rd mr fs
      (by simpa using hblank)]
    by_cases hc : audioPathOf audF doc.stem ∈ fs.insert (txtPathOf outF doc.stem)
    · have hcv : convert_text_to_speech successOracle
          (extract_text_from_pdf_with_ocr ocr doc.pages) doc.stem audF lang rd mr
          (fs.insert (txtPathOf outF doc.stem)) =
          { result := .ok (audioPathOf audF doc.stem), sleeps := [], attempts := 0,
            fs := fs.insert (txtPathOf outF doc.stem) } := by
        unfold convert_text_to_speech audioPathOf at *
        simp [hc]
      rw [hcv]
      refine ⟨rfl, fun p => ?_⟩
      rw [List.mem_insert_iff] at hc
      simp only [List.mem_insert_iff, hskip, true_and]
      constructor
      · rintro (h | h)
        · exact Or.inr (Or.inl h)
        · exact Or.inl h
      · rintro (h | h | h)
        · exact Or.inr h
        · exact Or.inl h
        · rcases hc with hc | hc
          · exact Or.inl (h.trans hc)
          · exact Or.inr (h ▸ hc)
    · rw [convert_not_cached successOracle (extract_text_from_pdf_with_ocr ocr doc.pages)
        doc.stem audF lang rd mr (fs.insert (txtPathOf outF doc.stem)) hc]
      obtain ⟨s, hs⟩ : ∃ s, mr.toNat = s + 1 := ⟨mr.toNat - 1, by omega⟩
      rw [hs, convertLoop_success_head (successOracle
        (extract_text_from_pdf_with_ocr ocr doc.pages) lang)
        (audioPathOf audF doc.stem) (fs.insert (txtPathOf outF doc.stem)) rd 0 s rfl]
      refine ⟨rfl, fun p => ?_⟩
      simp only [List.mem_insert_iff, hskip, true_and]
      tauto

/-- A run over the batch with an always-successful service: it completes,
and the final filesystem holds exactly the prior files plus, for every
non-skipped document, its text and audio paths. -/
theorem runSequential_success (ocr : OCREngine) (outF audF lang : String) (rd : Nat)
    (mr : Int) (hmr : 1 ≤ mr) :
    ∀ (docs : List PDFDoc) (fs : List String),
      (runSequential ocr successOracle docs outF audF lang rd mr fs).result = .ok () ∧
      ∀ p, p ∈ (runSequential ocr successOracle docs outF audF lang rd mr fs).fs ↔
        (p ∈ fs ∨ ∃ d, d ∈ docs ∧ docSkipped ocr d = false ∧
          (p = txtPathOf outF d.stem ∨ p = audioPathOf audF d.stem)) := by
  intro docs
  induction docs with
  | nil =>
    intro fs
    exact ⟨rfl, fun p => by simp [runSequential]⟩
  | cons d ds ih =>
    intro fs
    obtain ⟨hok, hmem⟩ := process_pdf_success ocr d outF audF lang rd mr fs hmr
    obtain ⟨hok2, hmem2⟩ :=
      ih (process_pdf ocr successOracle d outF audF lang rd mr fs).fs
    constructor
    · simp only [runSequential, hok]
      exact hok2
    · intro p
      simp only [runSequential, hok]
      rw [hmem2 p, hmem p]
      simp only [List.mem_cons, exists_eq_or_imp]
      aesop

/-- A document that is skipped or whose audio file already exists is
processed with zero synthesis attempts and zero sleeps, succeeds whatever
the service would do, and only grows the filesystem. -/
theorem process_pdf_cached (ocr : OCREngine) (oracle : SynthOracle) (doc : PDFDoc)
    (outF audF lang : String) (rd : Nat) (mr : Int) (fs : List String)
    (hc : docSkipped ocr doc = true ∨ audioPathOf audF doc.stem ∈ fs) :
    (process_pdf ocr oracle doc outF audF lang rd mr fs).result = .ok () ∧
    (process_pdf ocr oracle doc outF audF lang rd mr fs).attempts = 0 ∧
    ∀ p, p ∈ fs → p ∈ (process_pdf ocr oracle doc outF audF lang rd mr fs).fs := by
  by_cases hblank : isBlank (extract_text_from_pdf_with_ocr ocr doc.pages)
  · have hps : process_pdf ocr oracle doc outF audF lang rd mr fs =
        { result := .ok (), sleeps := [], attempts := 0, fs := fs } := by
      simp [process_pdf, hblank]
    rw [hps]
    exact ⟨rfl, rfl, fun p hp => hp⟩
  · have haudio : audioPathOf audF doc.stem ∈ fs := by
      rcases hc with hc | hc
      · rw [docSkipped] at hc; rw [hc] at hblank; exact absurd rfl hblank
      · exact hc
    rw [process_pdf_nonblank ocr oracle doc outF audF lang rd mr fs
      (by simpa using hblank)]
    have hc2 : audioPathOf audF doc.stem ∈ fs.insert (txtPathOf outF doc.stem) :=
      List.mem_insert_of_mem haudio
    have hcv : convert_text_to_speech oracle
        (extract_text_from_pdf_with_ocr ocr doc.pages) doc.stem audF lang rd mr
        (fs.insert (txtPathOf outF doc.stem)) =
        { result := .ok (audioPathOf audF doc.stem), sleeps := [], attempts := 0,
          fs := fs.insert (txtPathOf outF doc.stem) } := by
      unfold convert_text_to_speech audioPathOf at *
      simp [hc2]
    rw [hcv]
    exact ⟨rfl, rfl, fun p hp => List.mem_insert_of_mem hp⟩

/-- A batch run in which every document is skipped or already has its audio
file on disk completes with zero synthesis attempts, for any service
behaviour. -/
theorem runSequential_all_cached (ocr : OCREngine) (oracle : SynthOracle)
    (outF audF lang : String) (rd : Nat) (mr : Int) :
    ∀ (docs : List PDFDoc) (fs : List String),
      (∀ d, d ∈ docs → docSkipped ocr d = true ∨ audioPathOf audF d.stem ∈ fs) →
      (runSequential ocr oracle docs outF audF lang rd mr fs).result = .ok () ∧
      (runSequential ocr oracle docs outF audF lang rd mr fs).attempts = 0 := by
  intro docs
  induction docs with
  | nil => intro fs _; exact ⟨rfl, rfl⟩
  | cons d ds ih =>
    intro fs hall
    obtain ⟨hok, hatt, hmono⟩ :=
      process_pdf_cached ocr oracle d outF audF lang rd mr fs (hall d (by simp))
    have hall2 : ∀ d', d' ∈ ds → docSkipped ocr d' = true ∨
        audioPathOf audF d'.stem ∈ (process_pdf ocr oracle d outF audF lang rd mr fs).fs := by
      intro d' hd'
      rcases hall d' (by simp [hd']) with h | h
      · exact Or.inl h
      · exact Or.inr (hmono _ h)
    obtain ⟨hok2, hatt2⟩ := ih (process_pdf ocr oracle d outF audF lang rd mr fs).fs hall2
    constructor
    · simp only [runSequential, hok]
      exact hok2
    · simp only [runSequential, hok]
      rw [hatt, hatt2]

/-- C7: idempotence of the batch pipeline — after a first (successful,
never rate-limited) sequential run, a second run over the same documents
and folders makes zero synthesis attempts, whatever the service would do,
and completes successfully (every non-skipped document's audio file is
already cached on disk). -/
theorem C7_second_run_skips_synthesis (ocr : OCREngine) (oracle₂ : SynthOracle)
    (docs : List PDFDoc) (outF audF lang : String) (rd₁ rd₂ : Nat) (mr₁ mr₂ : Int)
    (fs : List String) (hmr : 1 ≤ mr₁) :
    (runSequential ocr oracle₂ docs outF audF lang rd₂ mr₂
        (runSequential ocr successOracle docs outF audF lang rd₁ mr₁ fs).fs).attempts
      = 0 ∧
    (runSequential ocr oracle₂ docs outF audF lang rd₂ mr₂
        (runSequential ocr successOracle docs outF audF lang rd₁ mr₁ fs).fs).result =
      .ok () := by
  obtain ⟨hok1, hmem1⟩ := runSequential_success ocr outF audF lang rd₁ mr₁ hmr docs fs
  have hall : ∀ d, d ∈ docs → docSkipped ocr d = true ∨ audioPathOf audF d.stem ∈
      (runSequential ocr successOracle docs outF audF lang rd₁ mr₁ fs).fs := by
    intro d hd
    by_cases hskip : docSkipped ocr d
    · exact Or.inl hskip
    · exact Or.inr ((hmem1 _).mpr
        (Or.inr ⟨d, hd, by simpa using hskip, Or.inr rfl⟩))
  obtain ⟨a, b⟩ :=
    runSequential_all_cached ocr oracle₂ outF audF lang rd₂ mr₂ docs _ hall
  exact ⟨b, a⟩

/-- Witness for C7: a one-document batch run twice, the second time against
a broken service. -/
theorem C7_second_run_skips_synthesis_witness :
    (1 : Int) ≤ 10 ∧
    (runSequential (fun _ _ => "") (fun _ _ _ => SynthOutcome.otherError "down")
        [PDFDoc.mk "a" [PDFPage.mk (some "Hi") (PageImage.mk "RGB" 0)]]
        "out" "audio" "en" 7 12
        (runSequential (fun _ _ => "") successOracle
          [PDFDoc.mk "a" [PDFPage.mk (some "Hi") (PageImage.mk "RGB" 0)]]
          "out" "audio" "en" 5 10 []).fs).attempts = 0 ∧
    (runSequential (fun _ _ => "") (fun _ _ _ => SynthOutcome.otherError "down")
        [PDFDoc.mk "a" [PDFPage.mk (some "Hi") (PageImage.mk "RGB" 0)]]
        "out" "audio" "en" 7 12
        (runSequential (fun _ _ => "") successOracle
          [PDFDoc.mk "a" [PDFPage.mk (some "Hi") (PageImage.mk "RGB" 0)]]
          "out" "audio" "en" 5 10 []).fs).result = .ok () :=
  ⟨by decide,
   (C7_second_run_skips_synthesis (fun _ _ => "")
     (fun _ _ _ => SynthOutcome.otherError "down")
     [PDFDoc.mk "a" [PDFPage.mk (some "Hi") (PageImage.mk "RGB" 0)]]
     "out" "audio" "en" 5 7 10 12 [] (by decide)).1,
   (C7_second_run_skips_synthesis (fun _ _ => "")
     (fun _ _ _ => SynthOutcome.otherError "down")
     [PDFDoc.mk "a" [PDFPage.mk (some "Hi") (PageImage.mk "RGB" 0)]]
     "out" "audio" "en" 5 7 10 12 [] (by decide)).2⟩

/-- C8: with no rate limiting and no errors (an always-successful service),
processing the documents in any completion order — the parallel mode is
modelled as a permutation of the submission order, since each document's
effect is an independent state transformation — produces the same set of
output files as the sequential order, and both runs complete. -/
theorem C8_parallel_order_irrelevant (ocr : OCREngine) (docs docs' : List PDFDoc)
    (outF audF lang : String) (rd : Nat) (mr : Int) (fs : List String)
    (hmr : 1 ≤ mr) (hperm : docs.Perm docs') :
    ((runSequential ocr successOracle docs outF audF lang rd mr fs).fs).toFinset =
      ((runSequential ocr successOracle docs' outF audF lang rd mr fs).fs).toFinset ∧
    (runSequential ocr successOracle docs outF audF lang rd mr fs).result = .ok () ∧
    (runSequential ocr successOracle docs' outF audF lang rd mr fs).result = .ok () := by
  obtain ⟨hok1, hmem1⟩ := runSequential_success ocr outF audF lang rd mr hmr docs fs
  obtain ⟨hok2, hmem2⟩ := runSequential_success ocr outF audF lang rd mr hmr docs' fs
  refine ⟨?_, hok1, hok2⟩
  ext p
  simp only [List.mem_toFinset]
  rw [hmem1 p, hmem2 p]
  constructor <;> rintro (h | ⟨d, hd, hq⟩)
  · exact Or.inl h
  · exact Or.inr ⟨d, hperm.mem_iff.mp hd, hq⟩
  · exact Or.inl h
  · exact Or.inr ⟨d, hperm.mem_iff.mpr hd, hq⟩

/-- Witness for C8: two documents processed in the two possible orders. -/
theorem C8_parallel_order_irrelevant_witness :
    ((1 : Int) ≤ 10 ∧
      ([PDFDoc.mk "a" [PDFPage.mk (some "A") (PageImage.mk "RGB" 0)],
        PDFDoc.mk "b" [PDFPage.mk (some "B") (PageImage.mk "RGB" 1)]].Perm
       [PDFDoc.mk "b" [PDFPage.mk (some "B") (PageImage.mk "RGB" 1)],
        PDFDoc.mk "a" [PDFPage.mk (some "A") (PageImage.mk "RGB" 0)]])) ∧
    ((runSequential (fun _ _ => "") successOracle
        [PDFDoc.mk "a" [PDFPage.mk (some "A") (PageImage.mk "RGB" 0)],
         PDFDoc.mk "b" [PDFPage.mk (some "B") (PageImage.mk "RGB" 1)]]
        "out" "audio" "en" 5 10 []).fs).toFinset =
      ((runSequential (fun _ _ => "") successOracle
        [PDFDoc.mk "b" [PDFPage.mk (some "B") (PageImage.mk "RGB" 1)],
         PDFDoc.mk "a" [PDFPage.mk (some "A") (PageImage.mk "RGB" 0)]]
        "out" "audio" "en" 5 10 []).fs).toFinset ∧
    (runSequential (fun _ _ => "") successOracle
        [PDFDoc.mk "a" [PDFPage.mk (some "A") (PageImage.mk "RGB" 0)],
         PDFDoc.mk "b" [PDFPage.mk (some "B") (PageImage.mk "RGB" 1)]]
        "out" "audio" "en" 5 10 []).result = .ok () ∧
    (runSequential (fun _ _ => "") successOracle
        [PDFDoc.mk "b" [PDFPage.mk (some "B") (PageImage.mk "RGB" 1)],
         PDFDoc.mk "a" [PDFPage.mk (some "A") (PageImage.mk "RGB" 0)]]
        "out" "audio" "en" 5 10 []).result = .ok () :=
  ⟨⟨by decide,
    List.Perm.swap (PDFDoc.mk "b" [PDFPage.mk (some "B") (PageImage.mk "RGB" 1)])
      (PDFDoc.mk "a" [PDFPage.mk (some "A") (PageImage.mk "RGB" 0)]) []⟩,
   C8_parallel_order_irrelevant (fun _ _ => "")
     [PDFDoc.mk "a" [PDFPage.mk (some "A") (PageImage.mk "RGB" 0)],
      PDFDoc.mk "b" [PDFPage.mk (some "B") (PageImage.mk "RGB" 1)]]
     [PDFDoc.mk "b" [PDFPage.mk (some "B") (PageImage.mk "RGB" 1)],
      PDFDoc.mk "a" [PDFPage.mk (some "A") (PageImage.mk "RGB" 0)]]
     "out" "audio" "en" 5 10 [] (by decide)
     (List.Perm.swap (PDFDoc.mk "b" [PDFPage.mk (some "B") (PageImage.mk "RGB" 1)])
       (PDFDoc.mk "a" [PDFPage.mk (some "A") (PageImage.mk "RGB" 0)]) [])⟩
